import Mathlib

/-!
Shallow embedding of the Persistence & Alert Engine of the child-detection
system (`src/FINALEVERYTHING2/FINALEVERYTHING2.ino`).

Temperature is modelled as an exact rational; the C `(uint8_t)` cast of the
nonnegative products is modelled as `truncQ` (floor, then `Int.toNat`).
The engine's mutable globals `motionPersistenceCounter` / `alertSystemStopped`
form `EngineCore`; the three event-handling blocks of `motionDetectionTask`
become `stepEvent`, and one full loop iteration (events, alert-level
computation, emission of `AlertLedData`) becomes `engineCycle`.
-/

namespace ChildSafety

/-- Truncating cast of a nonnegative rational to a natural number,
modelling the C `(uint8_t)` conversion of the (always nonnegative,
small) threshold products. -/
def truncQ (x : ℚ) : ℕ := (Int.floor x).toNat

/-- `MAX_PERSISTENCE_COUNTER`: maximum value for the persistence counter. -/
def MAX_PERSISTENCE_COUNTER : ℕ := 20

/-- `MIN_COUNTER_FOR_ALERT`: minimum counter value to trigger alerts. -/
def MIN_COUNTER_FOR_ALERT : ℕ := 1

/-- `BASE_SLOW_BLINK_COUNTER`: base threshold for slow blink (at 22 C). -/
def BASE_SLOW_BLINK_COUNTER : ℕ := 5

/-- `BASE_MEDIUM_BLINK_COUNTER`: base threshold for medium blink (at 22 C). -/
def BASE_MEDIUM_BLINK_COUNTER : ℕ := 8

/-- `BASE_FAST_BLINK_COUNTER`: base threshold for fast blink (at 22 C). -/
def BASE_FAST_BLINK_COUNTER : ℕ := 12

/-- `BASE_CRITICAL_BLINK_COUNTER`: base threshold for critical blink (at 22 C). -/
def BASE_CRITICAL_BLINK_COUNTER : ℕ := 16

/-- `COMFORTABLE_TEMP = 22.0` (Celsius). -/
def COMFORTABLE_TEMP : ℚ := 22

/-- `HOT_TEMP_THRESHOLD = 30.0` (Celsius). -/
def HOT_TEMP_THRESHOLD : ℚ := 30

/-- `CRITICAL_TEMP_THRESHOLD = 35.0` (Celsius). -/
def CRITICAL_TEMP_THRESHOLD : ℚ := 35

/-- The five computed thresholds: the four reference-parameter outputs of
`calculateTemperatureAdjustedThresholds` plus the new value it stores into
the global `ALERT_STOP_THRESHOLD`. -/
structure ThresholdSet where
  slow : ℕ
  medium : ℕ
  fast : ℕ
  critical : ℕ
  stop : ℕ
  deriving DecidableEq

/-- The `adjustmentFactor` computation of
`calculateTemperatureAdjustedThresholds` (lines 199-212): a 3-zone
piecewise model of temperature. The C literals `0.3`, `0.5` are modelled
exactly as `3/10`, `1/2`. -/
def adjustmentFactor (temperature : ℚ) : ℚ :=
  if CRITICAL_TEMP_THRESHOLD ≤ temperature then 3/10
  else if HOT_TEMP_THRESHOLD ≤ temperature then 1/2
  else if COMFORTABLE_TEMP < temperature then
    1 - ((temperature - COMFORTABLE_TEMP) / (HOT_TEMP_THRESHOLD - COMFORTABLE_TEMP)) * (1/2)
  else 1

/-- Lines 215-228 of the source: each base threshold is multiplied by the
adjustment factor, truncated to an integer, then floored at its minimum
(1, 2, 3, 4, 2 respectively). The `stop` field is the value written to the
global `ALERT_STOP_THRESHOLD`. -/
def thresholdsFromFactor (f : ℚ) : ThresholdSet :=
  let calculatedSlow := truncQ ((BASE_SLOW_BLINK_COUNTER : ℚ) * f)
  let calculatedMedium := truncQ ((BASE_MEDIUM_BLINK_COUNTER : ℚ) * f)
  let calculatedFast := truncQ ((BASE_FAST_BLINK_COUNTER : ℚ) * f)
  let calculatedCritical := truncQ ((BASE_CRITICAL_BLINK_COUNTER : ℚ) * f)
  let calculatedStop := truncQ ((5 : ℚ) * f)
  { slow := if 1 < calculatedSlow then calculatedSlow else 1
    medium := if 2 < calculatedMedium then calculatedMedium else 2
    fast := if 3 < calculatedFast then calculatedFast else 3
    critical := if 4 < calculatedCritical then calculatedCritical else 4
    stop := if 2 < calculatedStop then calculatedStop else 2 }

/-- `calculateTemperatureAdjustedThresholds` (lines 193-229): factor from
temperature, then adjusted, floored thresholds. -/
def calculateTemperatureAdjustedThresholds (temperature : ℚ) : ThresholdSet :=
  thresholdsFromFactor (adjustmentFactor temperature)

/-- The blink-rate selection of `calculateBlinkRate` for a given threshold
set (lines 284-288). -/
def blinkRateFromThresholds (th : ThresholdSet) (counter : ℕ) : ℕ :=
  if th.critical ≤ counter then 4
  else if th.fast ≤ counter then 3
  else if th.medium ≤ counter then 2
  else if th.slow ≤ counter then 1
  else 0

/-- `calculateBlinkRate` (lines 279-289): recompute temperature-adjusted
thresholds, then compare the counter against them, highest tier first. -/
def calculateBlinkRate (counter : ℕ) (temperature : ℚ) : ℕ :=
  blinkRateFromThresholds (calculateTemperatureAdjustedThresholds temperature) counter

/-- The engine's core mutable state: `motionPersistenceCounter` and
`alertSystemStopped` (`stopped = true` is the STOPPED mode,
`stopped = false` is ACTIVE). -/
structure EngineCore where
  counter : ℕ
  stopped : Bool
  deriving DecidableEq

/-- Initial state on restart: `counter = 0`, mode ACTIVE. -/
def initState : EngineCore := { counter := 0, stopped := false }

/-- The three kinds of events drained by `motionDetectionTask`:
a motion (PIR) event, a stop-button event carrying the value of
`ALERT_STOP_THRESHOLD` current at trigger time, and a decay tick
(the 6-second cycle) carrying whether a PIR trigger fell inside the
trailing `PIR_DETECTION_WINDOW`. -/
inductive Event where
  | motion : Event
  | stopButton (stopTh : ℕ) : Event
  | decayTick (pirInWindow : Bool) : Event
  deriving DecidableEq

/-- One event-processing block of `motionDetectionTask`:
  * lines 418-436: a stop event is honored only when
    `counter > ALERT_STOP_THRESHOLD`; then `alertSystemStopped := true`
    and `counter := 0`;
  * lines 439-449: a PIR event increments the counter (saturating at
    `MAX_PERSISTENCE_COUNTER`) only when the system is not stopped;
  * lines 452-471: on a decay tick with no PIR trigger in the detection
    window, a positive counter is decremented, and if the system was
    stopped and the counter thereby reaches 0 the system re-arms. -/
def stepEvent (e : Event) (s : EngineCore) : EngineCore :=
  match e with
  | .motion =>
      if s.stopped = false then
        if s.counter < MAX_PERSISTENCE_COUNTER then
          { s with counter := s.counter + 1 }
        else s
      else s
  | .stopButton stopTh =>
      if stopTh < s.counter then { counter := 0, stopped := true } else s
  | .decayTick pirInWindow =>
      if pirInWindow = false then
        if 0 < s.counter then
          let c := s.counter - 1
          { counter := c
            stopped := if s.stopped = true ∧ c = 0 then false else s.stopped }
        else s
      else s

/-- Run a sequence of events from a given state. -/
def runEventsFrom (s : EngineCore) (es : List Event) : EngineCore :=
  es.foldl (fun s e => stepEvent e s) s

/-- Run a sequence of events from the initial state. -/
def runEvents (es : List Event) : EngineCore :=
  runEventsFrom initState es

/-- The `AlertLedData` command emitted to the alert-LED task each cycle. -/
structure AlertLedData where
  blinkRate : ℕ
  active : Bool
  forceUpdate : Bool
  deriving DecidableEq

/-- The inputs one iteration of the `motionDetectionTask` loop observes:
the two ISR flags, whether the 6-second decay interval has elapsed,
whether a PIR trigger fell inside the detection window, and the current
temperature sample. -/
structure CycleInput where
  stopPressed : Bool
  pirTriggered : Bool
  decayDue : Bool
  pirInWindow : Bool
  temperature : ℚ
  deriving DecidableEq

/-- Engine state across cycles: the core state plus `lastBlinkRate`, the
previous cycle's emitted alert level (used for change detection). -/
structure EngineState where
  core : EngineCore
  lastBlinkRate : ℕ
  deriving DecidableEq

/-- Initial cross-cycle state: counter 0, ACTIVE, `lastBlinkRate = 0`. -/
def initEngineState : EngineState := { core := initState, lastBlinkRate := 0 }

/-- One full iteration of the `motionDetectionTask` loop (lines 414-525):
drain the stop flag, then the PIR flag, then the decay tick; compute the
alert level (`0` when stopped, else `calculateBlinkRate`); emit the
`AlertLedData` with `forceUpdate = (rate != lastBlinkRate) || stopped`;
record the emitted rate as the new `lastBlinkRate`. -/
def engineCycle (s : EngineState) (i : CycleInput) : EngineState × AlertLedData :=
  let stopTh := (calculateTemperatureAdjustedThresholds i.temperature).stop
  let c1 := if i.stopPressed = true then stepEvent (.stopButton stopTh) s.core else s.core
  let c2 := if i.pirTriggered = true then stepEvent .motion c1 else c1
  let c3 := if i.decayDue = true then stepEvent (.decayTick i.pirInWindow) c2 else c2
  let currentBlinkRate :=
    if c3.stopped = false then calculateBlinkRate c3.counter i.temperature else 0
  let motionActive :=
    c3.stopped = false && decide (MIN_COUNTER_FOR_ALERT ≤ c3.counter)
  let cmd : AlertLedData :=
    { blinkRate := currentBlinkRate
      active := motionActive
      forceUpdate := decide (currentBlinkRate ≠ s.lastBlinkRate) || c3.stopped }
  ({ core := c3, lastBlinkRate := currentBlinkRate }, cmd)

/-- Run a sequence of cycles, keeping only the state. -/
def runCycles (s : EngineState) (is : List CycleInput) : EngineState :=
  is.foldl (fun s i => (engineCycle s i).1) s

/-- The globals surrounding a call to `calculateTemperatureAdjustedThresholds`
that the Persistence Engine owns, other than the reference parameters:
the stop gate `ALERT_STOP_THRESHOLD` and the rest of the engine state. -/
structure Globals where
  alertStopThreshold : ℕ
  motionPersistenceCounter : ℕ
  alertSystemStopped : Bool
  currentTemperature : ℚ
  deriving DecidableEq

/-- The four reference-parameter outputs of a call to
`calculateTemperatureAdjustedThresholds`. -/
structure ThresholdOut where
  slowThreshold : ℕ
  mediumThreshold : ℕ
  fastThreshold : ℕ
  criticalThreshold : ℕ
  deriving DecidableEq

/-- A call to `calculateTemperatureAdjustedThresholds` as a state
transformer over the engine globals: it returns the four thresholds
through its reference parameters and (line 228) assigns the computed
stop threshold to the global `ALERT_STOP_THRESHOLD`. -/
def callCalculateThresholds (temperature : ℚ) (g : Globals) : ThresholdOut × Globals :=
  let th := calculateTemperatureAdjustedThresholds temperature
  ({ slowThreshold := th.slow
     mediumThreshold := th.medium
     fastThreshold := th.fast
     criticalThreshold := th.critical },
   { g with alertStopThreshold := th.stop })

/-- A cycle input carrying only a PIR (motion) event, at 22 C. -/
def cMotion : CycleInput :=
  { stopPressed := false, pirTriggered := true, decayDue := false
    pirInWindow := false, temperature := 22 }

/-- A cycle input carrying only a stop-button event, at 22 C. -/
def cStopPress : CycleInput :=
  { stopPressed := true, pirTriggered := false, decayDue := false
    pirInWindow := false, temperature := 22 }

/-- A cycle input carrying no events at all, at 22 C. -/
def cIdle : CycleInput :=
  { stopPressed := false, pirTriggered := false, decayDue := false
    pirInWindow := false, temperature := 22 }

/-- Six motion cycles followed by a stop-button cycle: at 22 C the stop
threshold is 5, so the stop event is honored (counter 6 > 5), entering the
STOPPED mode. -/
def stoppedTrace : List CycleInput :=
  [cMotion, cMotion, cMotion, cMotion, cMotion, cMotion, cStopPress]

/-- Six motion events followed by a stop event at threshold 5 (event-level
counterpart of `stoppedTrace`). -/
def sixMotionsThenStop : List Event :=
  [Event.motion, Event.motion, Event.motion, Event.motion, Event.motion,
   Event.motion, Event.stopButton 5]

/-! ## General lemmas about the threshold computation -/

/-- A natural lower bound on a rational transfers to its truncation. -/
theorem le_truncQ {n : ℕ} {a : ℚ} (h : (n : ℚ) ≤ a) : n ≤ truncQ a := by
  have h1 : (n : ℤ) ≤ Int.floor a := Int.le_floor.mpr (by exact_mod_cast h)
  unfold truncQ
  omega

/-- Truncation is strictly monotone across a gap of at least one. -/
theorem truncQ_lt_truncQ {a b : ℚ} (ha : 0 ≤ a) (h : a + 1 ≤ b) :
    truncQ a < truncQ b := by
  have h1 : Int.floor a + 1 ≤ Int.floor b := by
    have h2 := Int.floor_mono h
    rwa [Int.floor_add_one] at h2
  have h0 : 0 ≤ Int.floor a := Int.floor_nonneg.mpr ha
  unfold truncQ
  omega

/-- The adjustment factor is either exactly 3/10 (critical zone) or lies
in the interval from 1/2 to 1 (hot, interpolated, and comfortable zones). -/
theorem adjustmentFactor_cases (t : ℚ) :
    adjustmentFactor t = 3/10 ∨ (1/2 ≤ adjustmentFactor t ∧ adjustmentFactor t ≤ 1) := by
  unfold adjustmentFactor CRITICAL_TEMP_THRESHOLD HOT_TEMP_THRESHOLD COMFORTABLE_TEMP
  split_ifs with hA hB hC
  · left; rfl
  · right; norm_num
  · right; push_neg at hB; constructor <;> (norm_num; linarith)
  · right; norm_num

/-- For any factor at least 1/2 the five thresholds are strictly ordered
and sit above their floors. -/
theorem thresholdsFromFactor_chain {f : ℚ} (h1 : 1/2 ≤ f) :
    (thresholdsFromFactor f).slow < (thresholdsFromFactor f).medium ∧
    (thresholdsFromFactor f).medium < (thresholdsFromFactor f).fast ∧
    (thresholdsFromFactor f).fast < (thresholdsFromFactor f).critical ∧
    1 ≤ (thresholdsFromFactor f).slow ∧ 2 ≤ (thresholdsFromFactor f).medium ∧
    3 ≤ (thresholdsFromFactor f).fast ∧ 4 ≤ (thresholdsFromFactor f).critical ∧
    2 ≤ (thresholdsFromFactor f).stop := by
  have e5 : ((BASE_SLOW_BLINK_COUNTER : ℕ) : ℚ) = 5 := by norm_num [BASE_SLOW_BLINK_COUNTER]
  have e8 : ((BASE_MEDIUM_BLINK_COUNTER : ℕ) : ℚ) = 8 := by norm_num [BASE_MEDIUM_BLINK_COUNTER]
  have e12 : ((BASE_FAST_BLINK_COUNTER : ℕ) : ℚ) = 12 := by norm_num [BASE_FAST_BLINK_COUNTER]
  have e16 : ((BASE_CRITICAL_BLINK_COUNTER : ℕ) : ℚ) = 16 := by
    norm_num [BASE_CRITICAL_BLINK_COUNTER]
  have hs : 2 ≤ truncQ ((BASE_SLOW_BLINK_COUNTER : ℚ) * f) := by
    apply le_truncQ; rw [e5]; push_cast; linarith
  have hm : 4 ≤ truncQ ((BASE_MEDIUM_BLINK_COUNTER : ℚ) * f) := by
    apply le_truncQ; rw [e8]; push_cast; linarith
  have hf : 6 ≤ truncQ ((BASE_FAST_BLINK_COUNTER : ℚ) * f) := by
    apply le_truncQ; rw [e12]; push_cast; linarith
  have hc : 8 ≤ truncQ ((BASE_CRITICAL_BLINK_COUNTER : ℚ) * f) := by
    apply le_truncQ; rw [e16]; push_cast; linarith
  have h58 : truncQ ((BASE_SLOW_BLINK_COUNTER : ℚ) * f) <
      truncQ ((BASE_MEDIUM_BLINK_COUNTER : ℚ) * f) := by
    apply truncQ_lt_truncQ
    · rw [e5]; linarith
    · rw [e5, e8]; linarith
  have h812 : truncQ ((BASE_MEDIUM_BLINK_COUNTER : ℚ) * f) <
      truncQ ((BASE_FAST_BLINK_COUNTER : ℚ) * f) := by
    apply truncQ_lt_truncQ
    · rw [e8]; linarith
    · rw [e8, e12]; linarith
  have h1216 : truncQ ((BASE_FAST_BLINK_COUNTER : ℚ) * f) <
      truncQ ((BASE_CRITICAL_BLINK_COUNTER : ℚ) * f) := by
    apply truncQ_lt_truncQ
    · rw [e12]; linarith
    · rw [e12, e16]; linarith
  simp only [thresholdsFromFactor]
  split_ifs <;> omega

/-- At 22 C the factor is exactly 1 (comfortable zone boundary: 22 is not
strictly above `COMFORTABLE_TEMP`). -/
theorem adjustmentFactor_at_22 : adjustmentFactor 22 = 1 := by
  norm_num [adjustmentFactor, CRITICAL_TEMP_THRESHOLD, HOT_TEMP_THRESHOLD, COMFORTABLE_TEMP]

/-- At 30 C the factor is exactly 1/2 (hot zone). -/
theorem adjustmentFactor_at_30 : adjustmentFactor 30 = 1/2 := by
  norm_num [adjustmentFactor, CRITICAL_TEMP_THRESHOLD, HOT_TEMP_THRESHOLD, COMFORTABLE_TEMP]

/-- At 35 C the factor is exactly 3/10 (critical zone). -/
theorem adjustmentFactor_at_35 : adjustmentFactor 35 = 3/10 := by
  norm_num [adjustmentFactor, CRITICAL_TEMP_THRESHOLD, HOT_TEMP_THRESHOLD, COMFORTABLE_TEMP]

/-- Concrete thresholds at 22 C: the base values, stop threshold 5. -/
theorem thresholdsAt22 : calculateTemperatureAdjustedThresholds 22 = ⟨5, 8, 12, 16, 5⟩ := by
  unfold calculateTemperatureAdjustedThresholds
  rw [adjustmentFactor_at_22]
  norm_num [thresholdsFromFactor, truncQ, BASE_SLOW_BLINK_COUNTER, BASE_MEDIUM_BLINK_COUNTER,
    BASE_FAST_BLINK_COUNTER, BASE_CRITICAL_BLINK_COUNTER, ThresholdSet.mk.injEq]
  omega

/-- Concrete thresholds at 30 C: half the base values, stop threshold 2. -/
theorem thresholdsAt30 : calculateTemperatureAdjustedThresholds 30 = ⟨2, 4, 6, 8, 2⟩ := by
  unfold calculateTemperatureAdjustedThresholds
  rw [adjustmentFactor_at_30]
  norm_num [thresholdsFromFactor, truncQ, BASE_SLOW_BLINK_COUNTER, BASE_MEDIUM_BLINK_COUNTER,
    BASE_FAST_BLINK_COUNTER, BASE_CRITICAL_BLINK_COUNTER, ThresholdSet.mk.injEq]
  omega

/-- Concrete thresholds at 35 C: the floor values, stop threshold clamped
up from 1 to 2. -/
theorem thresholdsAt35 : calculateTemperatureAdjustedThresholds 35 = ⟨1, 2, 3, 4, 2⟩ := by
  unfold calculateTemperatureAdjustedThresholds
  rw [adjustmentFactor_at_35]
  norm_num [thresholdsFromFactor, truncQ, BASE_SLOW_BLINK_COUNTER, BASE_MEDIUM_BLINK_COUNTER,
    BASE_FAST_BLINK_COUNTER, BASE_CRITICAL_BLINK_COUNTER, ThresholdSet.mk.injEq]

/-! ## General lemmas about the engine state machine -/

/-- The tier-selection chain is monotone in the counter for any threshold
set whatsoever. -/
theorem blinkRateFromThresholds_mono (th : ThresholdSet) {c1 c2 : ℕ} (h : c1 ≤ c2) :
    blinkRateFromThresholds th c1 ≤ blinkRateFromThresholds th c2 := by
  unfold blinkRateFromThresholds
  split_ifs <;> omega

/-- A property preserved by every event step holds after any fold of
events. -/
theorem foldl_invariant (P : EngineCore → Prop)
    (hstep : ∀ s e, P s → P (stepEvent e s)) :
    ∀ (es : List Event) (s : EngineCore), P s →
      P (es.foldl (fun s e => stepEvent e s) s) := by
  intro es
  induction es with
  | nil => intro s h; exact h
  | cons e es ih => intro s h; exact ih (stepEvent e s) (hstep s e h)

/-- Every event step preserves the counter's upper bound. -/
theorem stepEvent_counter_le_max (s : EngineCore) (e : Event)
    (h : s.counter ≤ MAX_PERSISTENCE_COUNTER) :
    (stepEvent e s).counter ≤ MAX_PERSISTENCE_COUNTER := by
  cases e <;> simp only [stepEvent, MAX_PERSISTENCE_COUNTER] at h ⊢ <;>
    split_ifs <;> simp_all <;> omega

/-- Every event step preserves "STOPPED implies counter 0". -/
theorem stepEvent_stopped_imp_zero (s : EngineCore) (e : Event)
    (h : s.stopped = true → s.counter = 0) :
    (stepEvent e s).stopped = true → (stepEvent e s).counter = 0 := by
  cases e <;> simp only [stepEvent] <;> split_ifs <;> simp_all

/-- In the ACTIVE mode, one no-motion decay tick decrements a positive
counter and leaves a zero counter at zero (truncated subtraction). -/
theorem stepEvent_decay_active (c : ℕ) :
    stepEvent (Event.decayTick false) ⟨c, false⟩ = ⟨c - 1, false⟩ := by
  by_cases hc : 0 < c
  · simp [stepEvent, hc]
  · simp [stepEvent, hc, EngineCore.mk.injEq]
    omega

/-- Running `n` no-motion decay ticks from an ACTIVE state with counter `c`
yields an ACTIVE state with counter `c - n`. -/
theorem decay_sequence (c n : ℕ) :
    runEventsFrom ⟨c, false⟩ (List.replicate n (Event.decayTick false)) = ⟨c - n, false⟩ := by
  induction n generalizing c with
  | zero => simp [runEventsFrom]
  | succ n ih =>
      rw [runEventsFrom, List.replicate_succ, List.foldl_cons, stepEvent_decay_active]
      rw [← runEventsFrom, ih (c - 1)]
      have h : c - 1 - n = c - (n + 1) := by omega
      rw [h]

/-- Running `stoppedTrace` from the initial state reaches the STOPPED
mode with counter 0 and last emitted alert level 0. -/
theorem runCycles_stoppedTrace :
    runCycles initEngineState stoppedTrace = ⟨⟨0, true⟩, 0⟩ := by
  simp [runCycles, stoppedTrace, cMotion, cStopPress, List.foldl, engineCycle,
    initEngineState, initState, stepEvent, thresholdsAt22, calculateBlinkRate,
    blinkRateFromThresholds, MAX_PERSISTENCE_COUNTER, MIN_COUNTER_FOR_ALERT]

/-! ## Claims -/

/-- Claim C1: for every engine state and current stop threshold, a stop
event with `counter ≤ stopThreshold` leaves the state unchanged (the mode
and counter are untouched, so an ACTIVE state remains ACTIVE), and a stop
event with `counter > stopThreshold` sets the mode to STOPPED and resets
the counter to 0 in that same step. -/
theorem stop_interlock_gating (s : EngineCore) (th : ℕ) :
    (s.counter ≤ th → stepEvent (Event.stopButton th) s = s) ∧
    (th < s.counter → (stepEvent (Event.stopButton th) s).stopped = true ∧
      (stepEvent (Event.stopButton th) s).counter = 0) := by
  constructor
  · intro h
    simp only [stepEvent]
    rw [if_neg]
    omega
  · intro h
    simp only [stepEvent]
    rw [if_pos h]
    exact ⟨rfl, rfl⟩

/-- Witness for C1: at threshold 5, a stop event at counter 3 is inert,
and a stop event at counter 7 enters STOPPED with counter 0. -/
theorem stop_interlock_gating_witness :
    (3 ≤ 5 ∧ stepEvent (Event.stopButton 5) ⟨3, false⟩ = ⟨3, false⟩) ∧
    (5 < 7 ∧ (stepEvent (Event.stopButton 5) ⟨7, false⟩).stopped = true ∧
      (stepEvent (Event.stopButton 5) ⟨7, false⟩).counter = 0) :=
  ⟨⟨by decide, (stop_interlock_gating ⟨3, false⟩ 5).1 (by decide)⟩,
   ⟨by decide, (stop_interlock_gating ⟨7, false⟩ 5).2 (by decide)⟩⟩

/-- Claim C2: whenever the mode is STOPPED, a step re-arms the engine
(STOPPED to ACTIVE) exactly when that step is a decay tick that brings the
counter from a nonzero value to 0, and never at any other step. -/
theorem auto_rearm_iff (s : EngineCore) (e : Event) (h : s.stopped = true) :
    ((stepEvent e s).stopped = false ↔
      ∃ w, e = Event.decayTick w ∧ s.counter ≠ 0 ∧ (stepEvent e s).counter = 0) := by
  cases e with
  | motion => simp [stepEvent, h]
  | stopButton th =>
      simp only [stepEvent]
      split_ifs with hlt
      · simp
      · simp [h]
  | decayTick w =>
      cases w with
      | true =>
          have hstep : stepEvent (Event.decayTick true) s = s := by simp [stepEvent]
          rw [hstep]
          constructor
          · intro hz
            rw [h] at hz
            exact Bool.noConfusion hz
          · rintro ⟨w1, hw1, hnz, hz⟩
            exact absurd hz hnz
      | false =>
          rcases Nat.eq_zero_or_pos s.counter with hc | hc
          · have hstep : stepEvent (Event.decayTick false) s = s := by
              simp [stepEvent, hc]
            rw [hstep]
            constructor
            · intro hz
              rw [h] at hz
              exact Bool.noConfusion hz
            · rintro ⟨w1, hw1, hnz, hz⟩
              exact absurd hc hnz
          · have hstep : stepEvent (Event.decayTick false) s =
                ⟨s.counter - 1, if s.counter - 1 = 0 then false else true⟩ := by
              simp [stepEvent, hc, h]
            rw [hstep]
            by_cases hz : s.counter - 1 = 0
            · rw [if_pos hz]
              constructor
              · intro _
                exact ⟨false, rfl, by omega, hz⟩
              · intro _
                rfl
            · rw [if_neg hz]
              constructor
              · intro hcontra
                exact Bool.noConfusion hcontra
              · rintro ⟨w1, hw1, hnz, hz1⟩
                exact absurd hz1 hz

/-- Witness for C2: from the STOPPED state with counter 1, the no-motion
decay tick re-arms the engine. -/
theorem auto_rearm_witness :
    (⟨1, true⟩ : EngineCore).stopped = true ∧
    (stepEvent (Event.decayTick false) ⟨1, true⟩).stopped = false :=
  ⟨rfl, (auto_rearm_iff ⟨1, true⟩ (Event.decayTick false) rfl).mpr
    ⟨false, rfl, by decide, by decide⟩⟩

/-- Claim C3: for every temperature the computed thresholds satisfy
`slow < medium < fast < critical` with floors 1, 2, 3, 4 respectively,
and the stop threshold is at least 2. -/
theorem threshold_monotonicity (t : ℚ) :
    (calculateTemperatureAdjustedThresholds t).slow <
      (calculateTemperatureAdjustedThresholds t).medium ∧
    (calculateTemperatureAdjustedThresholds t).medium <
      (calculateTemperatureAdjustedThresholds t).fast ∧
    (calculateTemperatureAdjustedThresholds t).fast <
      (calculateTemperatureAdjustedThresholds t).critical ∧
    1 ≤ (calculateTemperatureAdjustedThresholds t).slow ∧
    2 ≤ (calculateTemperatureAdjustedThresholds t).medium ∧
    3 ≤ (calculateTemperatureAdjustedThresholds t).fast ∧
    4 ≤ (calculateTemperatureAdjustedThresholds t).critical ∧
    2 ≤ (calculateTemperatureAdjustedThresholds t).stop := by
  rcases adjustmentFactor_cases t with h | ⟨h1, h2⟩
  · unfold calculateTemperatureAdjustedThresholds
    rw [h]
    norm_num [thresholdsFromFactor, truncQ, BASE_SLOW_BLINK_COUNTER, BASE_MEDIUM_BLINK_COUNTER,
      BASE_FAST_BLINK_COUNTER, BASE_CRITICAL_BLINK_COUNTER]
  · unfold calculateTemperatureAdjustedThresholds
    exact thresholdsFromFactor_chain h1

/-- Claim C4: the counter of every state reachable from the initial state
stays at most `MAX_PERSISTENCE_COUNTER` (it is a natural number, hence
never negative); a motion event at counter 20 saturates at 20, and a
decay tick at counter 0 leaves it at 0. -/
theorem counter_bounds :
    (∀ es : List Event, (runEvents es).counter ≤ MAX_PERSISTENCE_COUNTER) ∧
    (∀ s : EngineCore, s.counter = MAX_PERSISTENCE_COUNTER →
      (stepEvent Event.motion s).counter = MAX_PERSISTENCE_COUNTER) ∧
    (∀ (s : EngineCore) (w : Bool), s.counter = 0 →
      (stepEvent (Event.decayTick w) s).counter = 0) := by
  refine ⟨?_, ?_, ?_⟩
  · intro es
    exact foldl_invariant (fun s => s.counter ≤ MAX_PERSISTENCE_COUNTER)
      stepEvent_counter_le_max es initState (by simp [initState, MAX_PERSISTENCE_COUNTER])
  · intro s h
    simp only [stepEvent]
    split_ifs <;> simp_all
  · intro s w h
    simp only [stepEvent]
    split_ifs <;> simp_all

/-- Witness for C4: 25 motion events saturate at the bound; a motion step
at counter 20 stays at 20; a decay tick at counter 0 stays at 0. -/
theorem counter_bounds_witness :
    (runEvents (List.replicate 25 Event.motion)).counter ≤ MAX_PERSISTENCE_COUNTER ∧
    ((⟨20, false⟩ : EngineCore).counter = MAX_PERSISTENCE_COUNTER ∧
      (stepEvent Event.motion ⟨20, false⟩).counter = MAX_PERSISTENCE_COUNTER) ∧
    ((⟨0, true⟩ : EngineCore).counter = 0 ∧
      (stepEvent (Event.decayTick false) ⟨0, true⟩).counter = 0) :=
  ⟨counter_bounds.1 (List.replicate 25 Event.motion),
   ⟨by decide, counter_bounds.2.1 ⟨20, false⟩ (by decide)⟩,
   ⟨by decide, counter_bounds.2.2 ⟨0, true⟩ false (by decide)⟩⟩

/-- Counterexample for C5: the claim says a call to the threshold
calculator changes no program state beyond its four output parameters.
In the code the call also assigns the global `ALERT_STOP_THRESHOLD`
(line 228): at 35 C, starting from the initial global value 5, the call
leaves the stop gate at 2, not 5. -/
theorem calc_stop_global_modified_cx :
    (callCalculateThresholds 35 ⟨5, 18, false, 35⟩).2.alertStopThreshold ≠ 5 := by
  simp only [callCalculateThresholds, thresholdsAt35]
  decide

/-- Amended claim C5: the calculator is deterministic in the temperature
and touches none of the engine's other state, but it is not fully
side-effect-free: it writes the computed stop threshold into the global
`ALERT_STOP_THRESHOLD`. -/
theorem calc_call_frame (t : ℚ) (g : Globals) :
    (callCalculateThresholds t g).2.alertStopThreshold =
      (calculateTemperatureAdjustedThresholds t).stop ∧
    (callCalculateThresholds t g).2.motionPersistenceCounter = g.motionPersistenceCounter ∧
    (callCalculateThresholds t g).2.alertSystemStopped = g.alertSystemStopped ∧
    (callCalculateThresholds t g).2.currentTemperature = g.currentTemperature ∧
    (callCalculateThresholds t g).1 =
      ⟨(calculateTemperatureAdjustedThresholds t).slow,
       (calculateTemperatureAdjustedThresholds t).medium,
       (calculateTemperatureAdjustedThresholds t).fast,
       (calculateTemperatureAdjustedThresholds t).critical⟩ :=
  ⟨rfl, rfl, rfl, rfl, rfl⟩

/-- Witness for C5 (amended): a concrete call leaves the counter global
untouched. -/
theorem calc_call_frame_witness :
    (callCalculateThresholds 25 ⟨5, 3, false, 25⟩).2.motionPersistenceCounter = 3 :=
  (calc_call_frame 25 ⟨5, 3, false, 25⟩).2.1

/-- Counterexample for C6: after `stoppedTrace` the engine is already
STOPPED; the next idle cycle keeps it STOPPED (no transition in this
cycle) and emits the same alert level as the previous cycle, yet the
emitted `forceUpdate` is still `true` — the code sets it from
`alertSystemStopped` on every stopped cycle, not only on the transition. -/
theorem forceUpdate_stopped_cx :
    (runCycles initEngineState stoppedTrace).core.stopped = true ∧
    (engineCycle (runCycles initEngineState stoppedTrace) cIdle).1.core.stopped = true ∧
    (engineCycle (runCycles initEngineState stoppedTrace) cIdle).2.blinkRate =
      (runCycles initEngineState stoppedTrace).lastBlinkRate ∧
    (engineCycle (runCycles initEngineState stoppedTrace) cIdle).2.forceUpdate = true := by
  rw [runCycles_stoppedTrace]
  refine ⟨rfl, ?_, ?_, ?_⟩ <;>
    simp [engineCycle, cIdle, stepEvent, thresholdsAt22, calculateBlinkRate,
      blinkRateFromThresholds, MIN_COUNTER_FOR_ALERT]

/-- Amended claim C6: on every engine cycle the emitted `forceUpdate`
flag is true exactly when the computed alert level differs from the
previous cycle's, or the mode is STOPPED at emission time (not only in
the cycle of the transition). -/
theorem forceUpdate_characterization (s : EngineState) (i : CycleInput) :
    ((engineCycle s i).2.forceUpdate = true ↔
      ((engineCycle s i).2.blinkRate ≠ s.lastBlinkRate ∨
        (engineCycle s i).1.core.stopped = true)) := by
  simp only [engineCycle]
  simp [Bool.or_eq_true, decide_eq_true_iff]

/-- Witness for C6 (amended): on the initial state with an idle input the
flag is false, matching the characterization. -/
theorem forceUpdate_characterization_witness :
    ((engineCycle initEngineState cIdle).2.forceUpdate = true ↔
      ((engineCycle initEngineState cIdle).2.blinkRate ≠ initEngineState.lastBlinkRate ∨
        (engineCycle initEngineState cIdle).1.core.stopped = true)) :=
  forceUpdate_characterization initEngineState cIdle

/-- Claim C7: the calculator returns (5, 8, 12, 16) with stop threshold 5
at 22 C, (2, 4, 6, 8) with stop threshold 2 at 30 C, and (1, 2, 3, 4)
with stop threshold 2 at 35 C. -/
theorem threshold_concrete_values :
    calculateTemperatureAdjustedThresholds 22 = ⟨5, 8, 12, 16, 5⟩ ∧
    calculateTemperatureAdjustedThresholds 30 = ⟨2, 4, 6, 8, 2⟩ ∧
    calculateTemperatureAdjustedThresholds 35 = ⟨1, 2, 3, 4, 2⟩ :=
  ⟨thresholdsAt22, thresholdsAt30, thresholdsAt35⟩

/-- Claim C8: starting from any counter value in the ACTIVE mode, with no
motion events, `n` decay ticks leave the counter at `c - n` (truncated
subtraction: it decreases by exactly 1 per tick until 0 and then stays at
0), and the mode stays ACTIVE. -/
theorem decay_idempotence (c n : ℕ) :
    (runEventsFrom ⟨c, false⟩ (List.replicate n (Event.decayTick false))).counter = c - n ∧
    (runEventsFrom ⟨c, false⟩ (List.replicate n (Event.decayTick false))).stopped = false := by
  rw [decay_sequence]
  exact ⟨rfl, rfl⟩

/-- Claim C9: in every reachable state, STOPPED implies counter 0; the
step that enters STOPPED zeroes the counter in that same step; and while
STOPPED a motion event does not change the counter. -/
theorem stopped_counter_zero :
    (∀ es : List Event, (runEvents es).stopped = true → (runEvents es).counter = 0) ∧
    (∀ (s : EngineCore) (th : ℕ), th < s.counter →
      (stepEvent (Event.stopButton th) s).counter = 0 ∧
      (stepEvent (Event.stopButton th) s).stopped = true) ∧
    (∀ s : EngineCore, s.stopped = true → (stepEvent Event.motion s).counter = s.counter) := by
  refine ⟨?_, ?_, ?_⟩
  · intro es
    exact foldl_invariant (fun s => s.stopped = true → s.counter = 0)
      stepEvent_stopped_imp_zero es initState (by simp [initState])
  · intro s th h
    simp only [stepEvent]
    rw [if_pos h]
    exact ⟨rfl, rfl⟩
  · intro s h
    simp [stepEvent, h]

/-- Witness for C9: six motions then a stop reach STOPPED with counter 0;
the stop step zeroes the counter; a motion while STOPPED is inert. -/
theorem stopped_counter_zero_witness :
    ((runEvents sixMotionsThenStop).stopped = true →
      (runEvents sixMotionsThenStop).counter = 0) ∧
    (5 < 6 ∧ (stepEvent (Event.stopButton 5) ⟨6, false⟩).counter = 0 ∧
      (stepEvent (Event.stopButton 5) ⟨6, false⟩).stopped = true) ∧
    ((⟨0, true⟩ : EngineCore).stopped = true ∧
      (stepEvent Event.motion ⟨0, true⟩).counter = (⟨0, true⟩ : EngineCore).counter) :=
  ⟨stopped_counter_zero.1 sixMotionsThenStop,
   ⟨by decide, stopped_counter_zero.2.1 ⟨6, false⟩ 5 (by decide)⟩,
   ⟨by decide, stopped_counter_zero.2.2 ⟨0, true⟩ (by decide)⟩⟩

/-- Claim C10: for every fixed temperature the computed alert level is
monotone non-decreasing in the persistence counter. -/
theorem blinkRate_monotone_in_counter (t : ℚ) (c1 c2 : ℕ) (h : c1 ≤ c2) :
    calculateBlinkRate c1 t ≤ calculateBlinkRate c2 t :=
  blinkRateFromThresholds_mono (calculateTemperatureAdjustedThresholds t) h

/-- Witness for C10: at 22 C the alert level at counter 3 is at most the
alert level at counter 10. -/
theorem blinkRate_monotone_witness :
    3 ≤ 10 ∧ calculateBlinkRate 3 22 ≤ calculateBlinkRate 10 22 :=
  ⟨by decide, blinkRate_monotone_in_counter 22 3 10 (by decide)⟩

end ChildSafety
